import Mathlib

/-!
Shallow embedding of `CTkSafeEditBox.py` (class `CTkSafeEditBox`).

Python strings are modelled as `List Char` (`PyStr`): a Python `str` is a
sequence of code points, and list form makes slicing/indexing transparent.

External collaborators are parameters:
* the customtkinter theme table `ThemeManager.theme["CTkButton"]["fg_color"]`
  is a partial map from the input string to a theme value (a string, a list
  of strings, or some other object); `none` models any lookup failure
  (`KeyError`/`TypeError`), which the source catches and falls back on;
* `master.winfo_rgb` is a partial map from a color name to a triple of
  16-bit components (Tk guarantees each component is in 0..65535, hence
  `Fin 65536`); `none` models the `TclError` for an unknown name, which the
  source converts into a `ValueError`.
-/

abbrev PyStr := List Char

/-- Theme table values: the source checks `isinstance(color_code, list)`
(taking element 0) and then `isinstance(color_code, str)`; any other object
falls into the `raise ValueError` branch which the enclosing `try` catches.
List elements are modelled as strings, which is what the theme holds. -/
inductive ThemeVal where
  | str (s : PyStr)
  | list (l : List PyStr)
  | other
deriving DecidableEq

abbrev Theme := PyStr → Option ThemeVal

abbrev WinfoRgb := PyStr → Option (Fin 65536 × Fin 65536 × Fin 65536)

/-- The three `raise ValueError` sites of `_get_hover_color`. -/
inductive ColorError where
  /-- line 127: `Unknown or invalid color name` (any `winfo_rgb` failure). -/
  | unknownName
  /-- line 130: `Color code must be in format #RRGGBB` (length not 7). -/
  | badLength
  /-- line 136: `Invalid hex values in color code` (an `int(_, 16)` failed). -/
  | badHex
deriving DecidableEq

/-- Value of a single hexadecimal digit character (`0-9`, `a-f`, `A-F`),
by code point. -/
def hexDigitVal (c : Char) : Option Nat :=
  if 48 ≤ c.toNat ∧ c.toNat ≤ 57 then some (c.toNat - 48)
  else if 97 ≤ c.toNat ∧ c.toNat ≤ 102 then some (c.toNat - 97 + 10)
  else if 65 ≤ c.toNat ∧ c.toNat ≤ 70 then some (c.toNat - 65 + 10)
  else none

/-- ASCII whitespace stripped by Python's `int` (space, `\t`, `\n`, `\v`,
`\f`, `\r`). Non-ASCII characters (exotic Unicode digits and spaces) are
outside the model: every claim is settled on ASCII inputs. -/
def isPySpace (c : Char) : Bool :=
  c.toNat = 32 || c.toNat = 9 || c.toNat = 10 || c.toNat = 11 ||
  c.toNat = 12 || c.toNat = 13

/-- Python `int(s, 16)` on a two-character string `⟨c1, c2⟩`, as the source
applies it to each channel slice (`color_code[1:3]` etc.). Besides two hex
digits, Python accepts a single hex digit with surrounding whitespace or a
leading sign: `int("-1", 16) = -1`, `int(" 1", 16) = 1`, `int("1 ", 16) = 1`.
`none` models the `ValueError`. (Checked exhaustively against CPython over
all pairs of printable ASCII and whitespace characters.) -/
def pyIntBase16Pair (c1 c2 : Char) : Option Int :=
  match hexDigitVal c1, hexDigitVal c2 with
  | some d1, some d2 => some (16 * d1 + d2)
  | some d1, none => if isPySpace c2 then some (d1 : Int) else none
  | none, some d2 =>
    if isPySpace c1 then some (d2 : Int)
    else if c1 = '+' then some (d2 : Int)
    else if c1 = '-' then some (-(d2 : Int))
    else none
  | none, none => none

/-- Lines 139-142: `max(0, int(r * 0.85))`. For `r ≤ 0` the clamp yields 0;
for `r > 0`, `int(r * 0.85)` equals `17 * r / 20` rounded down (verified
against IEEE double arithmetic for every channel value 0..255 the function
can produce). -/
def darkenChannel (r : Int) : Nat :=
  if r ≤ 0 then 0 else 17 * r.toNat / 20

/-- Python `"{:02x}".format n`: lowercase hex, left-padded with `0` to width
at least 2. For `n ≥ 16` the plain hex digits already have width ≥ 2. -/
def pyFormat02x (n : Nat) : List Char :=
  if n < 16 then ['0', Nat.digitChar n] else Nat.toDigits 16 n

/-- Lines 111-119: resolve through `ThemeManager.theme["CTkButton"]["fg_color"]`,
taking element 0 of a list value, and fall back to the literal input on any
exception — a missing key, an empty list (`IndexError`), or a value that is
not a `"#"`-string (the `raise ValueError` inside the `try`). -/
def resolveThemeColor (theme : Theme) (input : PyStr) : PyStr :=
  match theme input with
  | none => input
  | some (ThemeVal.str s) => if s.head? = some '#' then s else input
  | some (ThemeVal.list []) => input
  | some (ThemeVal.list (s :: _)) => if s.head? = some '#' then s else input
  | some ThemeVal.other => input

/-- Lines 121-136: turn the resolved `color_code` into the three integer
channels. A code starting with `#` must have length 7 and three slices
accepted by `int(_, 16)`; anything else is resolved as a named color via
`winfo_rgb`, whose 16-bit components are scaled by `int(v / 256)`. -/
def resolveChannels (theme : Theme) (winfo : WinfoRgb) (input : PyStr) :
    Except ColorError (Int × Int × Int) :=
  if (resolveThemeColor theme input).head? = some '#' then
    match resolveThemeColor theme input with
    | [_, c1, c2, c3, c4, c5, c6] =>
      match pyIntBase16Pair c1 c2, pyIntBase16Pair c3 c4, pyIntBase16Pair c5 c6 with
      | some r, some g, some b => Except.ok (r, g, b)
      | _, _, _ => Except.error ColorError.badHex
    | _ => Except.error ColorError.badLength
  else
    match winfo (resolveThemeColor theme input) with
    | some (r16, g16, b16) =>
      Except.ok (((r16.val / 256 : Nat) : Int), ((g16.val / 256 : Nat) : Int),
        ((b16.val / 256 : Nat) : Int))
    | none => Except.error ColorError.unknownName

/-- `_get_hover_color` (lines 99-145): resolve the input to RGB channels,
darken each channel, re-encode as `#RRGGBB`. -/
def get_hover_color (theme : Theme) (winfo : WinfoRgb) (input : PyStr) :
    Except ColorError PyStr :=
  match resolveChannels theme winfo input with
  | Except.error e => Except.error e
  | Except.ok (r, g, b) =>
    Except.ok ('#' :: (pyFormat02x (darkenChannel r) ++
      pyFormat02x (darkenChannel g) ++ pyFormat02x (darkenChannel b)))

instance exceptDecEq {ε α : Type} [DecidableEq ε] [DecidableEq α] :
    DecidableEq (Except ε α)
  | Except.ok a, Except.ok b =>
    if h : a = b then isTrue (by rw [h]) else isFalse (by simp [h])
  | Except.ok _, Except.error _ => isFalse (by simp)
  | Except.error _, Except.ok _ => isFalse (by simp)
  | Except.error e, Except.error f =>
    if h : e = f then isTrue (by rw [h]) else isFalse (by simp [h])

def emptyTheme : Theme := fun _ => none

def emptyWinfo : WinfoRgb := fun _ => none

/-!
The widget itself. Construction arguments of `__init__` (lines 9-17) that
the claims are about; `max_characters` is `Option Int` — the `write` trace
is installed iff it is an `int` other than `None` (line 50). The optional
callbacks are external code invoked but not modelled as state transformers
(the spec treats them as opaque hooks); only their presence matters for
which branch of `if self.on_enable_edit_command:` runs.
-/

structure Config where
  edit_disabled_text : PyStr
  edit_enabled_text : PyStr
  edit_disabled_color : PyStr
  edit_enabled_color : PyStr
  max_characters : Option Int
  has_on_disable_edit_command : Bool
  has_on_enable_edit_command : Bool
deriving DecidableEq

/-- The mutable widget fields the claims refer to: `self.can_edit`, the
`CTkEntry`'s `state` (`"normal"` ↔ `entry_editable = true`), the text held
in `self.entry_var`, focus/selection of the entry, and the `CTkButton`'s
`text`, `fg_color` and `hover_color`. -/
structure WidgetState where
  can_edit : Bool
  entry_editable : Bool
  entry_text : PyStr
  entry_focused : Bool
  entry_selected : Bool
  button_text : PyStr
  button_fg_color : PyStr
  button_hover_color : PyStr
deriving DecidableEq

/-- `__init__` lines 34-69: `can_edit = False`, `entry_var` starts empty,
the entry is created with `state="disabled"`, and the button is created
with the disabled color/text and `hover_color=self._get_hover_color(...)`.
If `_get_hover_color` raises, the constructor propagates the exception and
no widget exists, hence `Except`. -/
def initWidget (cfg : Config) (theme : Theme) (winfo : WinfoRgb) :
    Except ColorError WidgetState :=
  match get_hover_color theme winfo cfg.edit_disabled_color with
  | Except.error e => Except.error e
  | Except.ok hover =>
    Except.ok
      { can_edit := false
        entry_editable := false
        entry_text := []
        entry_focused := false
        entry_selected := false
        button_text := cfg.edit_disabled_text
        button_fg_color := cfg.edit_disabled_color
        button_hover_color := hover }

/-- Result of one `toggle_edit_mode` call: the widget state when the call
returns or when the exception leaves the method (Python has already applied
the assignments that precede the raise), the escaping `ValueError` if any,
and which optional callback was invoked. -/
structure ToggleResult where
  state : WidgetState
  err : Option ColorError
  invoked_on_enable : Bool
  invoked_on_disable : Bool
deriving DecidableEq

/-- `toggle_edit_mode` (lines 71-93), statement by statement. Line 73 flips
`can_edit`; then one branch runs. Note the order inside each branch: the
entry's `state` is configured (line 76/88) before `_get_hover_color` is
evaluated for `EditButton.configure` (line 78/90), so if the color raises,
`can_edit` and the entry state have changed but the button has not. -/
def toggle_edit_mode (cfg : Config) (theme : Theme) (winfo : WinfoRgb)
    (s : WidgetState) : ToggleResult :=
  let s1 : WidgetState := { s with can_edit := !s.can_edit }
  if s1.can_edit then
    let s2 : WidgetState := { s1 with entry_editable := true }
    match get_hover_color theme winfo cfg.edit_enabled_color with
    | Except.error e => ⟨s2, some e, false, false⟩
    | Except.ok hover =>
      let s3 : WidgetState :=
        { s2 with
          button_fg_color := cfg.edit_enabled_color
          button_hover_color := hover
          button_text := cfg.edit_enabled_text }
      let s4 : WidgetState := { s3 with entry_focused := true, entry_selected := true }
      ⟨s4, none, cfg.has_on_enable_edit_command, false⟩
  else
    let s2 : WidgetState := { s1 with entry_editable := false }
    match get_hover_color theme winfo cfg.edit_disabled_color with
    | Except.error e => ⟨s2, some e, false, false⟩
    | Except.ok hover =>
      let s3 : WidgetState :=
        { s2 with
          button_fg_color := cfg.edit_disabled_color
          button_hover_color := hover
          button_text := cfg.edit_disabled_text }
      ⟨s3, none, false, cfg.has_on_disable_edit_command⟩

/-- Python slice `t[:m]` for an `int` bound `m` (negative bounds count from
the end, clamping at 0). -/
def pySliceTo (t : PyStr) (m : Int) : PyStr :=
  if 0 ≤ m then t.take m.toNat else t.take ((t.length : Int) + m).toNat

/-- `_limit_characters` (lines 95-97): applied once after each write of
`entry_var` when the trace is installed (`max_characters` is an `int`). The
`set` inside the handler does not re-fire the trace: Tcl disables a variable
trace while its handler runs. -/
def limit_characters (m : Int) (t : PyStr) : PyStr :=
  if (t.length : Int) ≥ m then pySliceTo t m else t

/-- One mutation of the stored text (keystroke or programmatic `set`): the
new value `t` is written to `entry_var`, then the `write` trace runs
`_limit_characters` iff `max_characters` was an `int` (line 50). -/
def writeText (cfg : Config) (s : WidgetState) (t : PyStr) : WidgetState :=
  { s with
    entry_text :=
      match cfg.max_characters with
      | none => t
      | some m => limit_characters m t }

/-- States of a widget over its lifetime: the constructed state, and closure
under `toggle_edit_mode` (including calls whose color lookup raised) and
text mutations. -/
inductive Reachable (cfg : Config) (theme : Theme) (winfo : WinfoRgb) :
    WidgetState → Prop
  | init (s : WidgetState) (h : initWidget cfg theme winfo = Except.ok s) :
      Reachable cfg theme winfo s
  | toggle (s : WidgetState) (h : Reachable cfg theme winfo s) :
      Reachable cfg theme winfo (toggle_edit_mode cfg theme winfo s).state
  | write (s : WidgetState) (t : PyStr) (h : Reachable cfg theme winfo s) :
      Reachable cfg theme winfo (writeText cfg s t)

/-- `_get_hover_color` as a method call: it receives the widget (whose
`master` supplies `winfo_rgb`) and returns its value; its body assigns no
field of `self`, so the state component of the result is the state it was
called in. -/
def get_hover_color_method (theme : Theme) (winfo : WinfoRgb)
    (s : WidgetState) (input : PyStr) : Except ColorError PyStr × WidgetState :=
  (get_hover_color theme winfo input, s)

/-!
Claim-side vocabulary: predicates phrased the way the specification talks
about the function, to be compared with the source translation above.
-/

/-- A character that is a hexadecimal digit (`0-9`, `a-f`, `A-F`). -/
def isHexDigit (c : Char) : Bool := (hexDigitVal c).isSome

/-- A lowercase hexadecimal digit (`0-9`, `a-f`), as produced by `{:02x}`. -/
def isLowerHexDigit (c : Char) : Bool :=
  (48 ≤ c.toNat && c.toNat ≤ 57) || (97 ≤ c.toNat && c.toNat ≤ 102)

/-- The specification's darkening of one channel: multiply by 0.85
(= 17/20 exactly), floor, clamp at 0. -/
def specDarken (n : Nat) : Nat := max 0 (17 * n / 20)

/-- Value of a two-hex-digit channel `RR` as the specification reads it. -/
def hexPairNat (c1 c2 : Char) : Nat :=
  16 * (hexDigitVal c1).getD 0 + (hexDigitVal c2).getD 0

/-- Whether the resolved code passes the source's hex path without raising:
length exactly 7 and all three channel slices accepted by `int(_, 16)`. -/
def channelParseOk (s : PyStr) : Bool :=
  match s with
  | [_, c1, c2, c3, c4, c5, c6] =>
    (pyIntBase16Pair c1 c2).isSome && (pyIntBase16Pair c3 c4).isSome &&
      (pyIntBase16Pair c5 c6).isSome
  | _ => false

/-- Whether an `Except` is the raising outcome. -/
def isErr {ε α : Type} (x : Except ε α) : Bool :=
  match x with
  | Except.error _ => true
  | Except.ok _ => false

/-!
Concrete fixtures used by the witnesses.
-/

def sampleConfig : Config :=
  { edit_disabled_text := "A".toList
    edit_enabled_text := "M".toList
    edit_disabled_color := "#808080".toList
    edit_enabled_color := "#00ff00".toList
    max_characters := some 8
    has_on_disable_edit_command := true
    has_on_enable_edit_command := true }

def sampleInitState : WidgetState :=
  { can_edit := false
    entry_editable := false
    entry_text := []
    entry_focused := false
    entry_selected := false
    button_text := "A".toList
    button_fg_color := "#808080".toList
    button_hover_color := "#6c6c6c".toList }

/-!
Shared lemmas.
-/

theorem resolveThemeColor_of_not_key (theme : Theme) (s : PyStr)
    (h : theme s = none) : resolveThemeColor theme s = s := by
  simp [resolveThemeColor, h]

theorem toggle_preserves_entry_text (cfg : Config) (theme : Theme)
    (winfo : WinfoRgb) (s : WidgetState) :
    (toggle_edit_mode cfg theme winfo s).state.entry_text = s.entry_text := by
  unfold toggle_edit_mode
  dsimp only
  split
  · split <;> rfl
  · split <;> rfl

theorem initWidget_fields (cfg : Config) (theme : Theme) (winfo : WinfoRgb)
    (s : WidgetState) (h : initWidget cfg theme winfo = Except.ok s) :
    s.can_edit = false ∧ s.entry_editable = false ∧ s.entry_text = [] ∧
    s.button_text = cfg.edit_disabled_text ∧
    s.button_fg_color = cfg.edit_disabled_color ∧
    get_hover_color theme winfo cfg.edit_disabled_color =
      Except.ok s.button_hover_color := by
  unfold initWidget at h
  split at h
  · exact absurd h (by simp)
  · rename_i hover heq
    simp only [Except.ok.injEq] at h
    subst h
    exact ⟨rfl, rfl, rfl, rfl, rfl, heq⟩

theorem darkenChannel_natCast (n : Nat) : darkenChannel (n : Int) = 17 * n / 20 := by
  unfold darkenChannel
  split
  · rename_i h
    have hn : n = 0 := by omega
    subst hn
    rfl
  · simp

theorem darkenChannel_pair (d1 d2 : Nat) :
    darkenChannel (16 * (d1 : Int) + (d2 : Int)) = 17 * (16 * d1 + d2) / 20 := by
  have h : (16 * (d1 : Int) + (d2 : Int)) = ((16 * d1 + d2 : Nat) : Int) := by
    push_cast
    ring
  rw [h, darkenChannel_natCast]

theorem specDarken_eq (n : Nat) : specDarken n = 17 * n / 20 := by
  simp [specDarken]

/-!
Claim theorems.
-/

/-- C7: for every construction of the widget, the initial state has the
edit-enabled boolean false, the text box read-only, and the button showing
the disabled label text and the disabled color. -/
theorem c7_initial_state_disabled (cfg : Config) (theme : Theme)
    (winfo : WinfoRgb) (s : WidgetState)
    (h : initWidget cfg theme winfo = Except.ok s) :
    s.can_edit = false ∧ s.entry_editable = false ∧
    s.button_text = cfg.edit_disabled_text ∧
    s.button_fg_color = cfg.edit_disabled_color := by
  obtain ⟨h1, h2, _, h4, h5, _⟩ := initWidget_fields cfg theme winfo s h
  exact ⟨h1, h2, h4, h5⟩

/-- C7 witness: the sample construction, evaluated. -/
theorem c7_initial_state_disabled_witness :
    sampleInitState.can_edit = false ∧ sampleInitState.entry_editable = false ∧
    sampleInitState.button_text = sampleConfig.edit_disabled_text ∧
    sampleInitState.button_fg_color = sampleConfig.edit_disabled_color :=
  c7_initial_state_disabled sampleConfig emptyTheme emptyWinfo sampleInitState
    (by decide)

/-- C8: `_get_hover_color` is deterministic and side-effect free — for a
fixed theme table and name resolver its value depends only on the input
string, not on the widget state, and the call leaves the state unchanged. -/
theorem c8_hover_color_pure (theme : Theme) (winfo : WinfoRgb)
    (s1 s2 : WidgetState) (input : PyStr) :
    (get_hover_color_method theme winfo s1 input).2 = s1 ∧
    (get_hover_color_method theme winfo s1 input).1 =
      (get_hover_color_method theme winfo s2 input).1 :=
  ⟨rfl, rfl⟩

/-- C10: `toggle_edit_mode` never modifies the stored text value (the
callbacks being modelled as external code that does not write the text). -/
theorem c10_toggle_preserves_text (cfg : Config) (theme : Theme)
    (winfo : WinfoRgb) (s : WidgetState) :
    (toggle_edit_mode cfg theme winfo s).state.entry_text = s.entry_text :=
  toggle_preserves_entry_text cfg theme winfo s

/-- C4: an input that is not a key of the theme's button color table, does
not start with `#`, and is not a name the toolkit resolves to RGB makes
`_get_hover_color` raise the invalid-color `ValueError`. -/
theorem c4_unknown_name_raises (theme : Theme) (winfo : WinfoRgb) (s : PyStr)
    (h1 : theme s = none) (h2 : s.head? ≠ some '#') (h3 : winfo s = none) :
    get_hover_color theme winfo s = Except.error ColorError.unknownName := by
  have hfall : resolveThemeColor theme s = s :=
    resolveThemeColor_of_not_key theme s h1
  simp only [get_hover_color, resolveChannels, hfall]
  rw [if_neg h2]
  simp [h3]

/-- C4 witness: the spec's example `"notacolor"`, evaluated. -/
theorem c4_unknown_name_raises_witness :
    get_hover_color emptyTheme emptyWinfo ("notacolor".toList) =
      Except.error ColorError.unknownName :=
  c4_unknown_name_raises emptyTheme emptyWinfo ("notacolor".toList) rfl
    (by decide) rfl


/-- C1: an input of the form `#RRGGBB` (a `#` followed by six hex digits)
that the theme's button color table does not resolve maps to the hex string
whose channels are the parsed channels multiplied by 0.85, floored, clamped
at 0 and re-encoded; in particular `#808080 ↦ #6c6c6c` and
`#FFFFFF ↦ #d8d8d8`. -/
theorem c1_hex_darkening (theme : Theme) (winfo : WinfoRgb)
    (c1 c2 c3 c4 c5 c6 : Char)
    (h1 : isHexDigit c1 = true) (h2 : isHexDigit c2 = true)
    (h3 : isHexDigit c3 = true) (h4 : isHexDigit c4 = true)
    (h5 : isHexDigit c5 = true) (h6 : isHexDigit c6 = true)
    (hfall : resolveThemeColor theme ('#' :: [c1, c2, c3, c4, c5, c6]) =
      '#' :: [c1, c2, c3, c4, c5, c6]) :
    get_hover_color theme winfo ('#' :: [c1, c2, c3, c4, c5, c6]) =
      Except.ok ('#' :: (pyFormat02x (specDarken (hexPairNat c1 c2)) ++
        pyFormat02x (specDarken (hexPairNat c3 c4)) ++
        pyFormat02x (specDarken (hexPairNat c5 c6)))) ∧
    get_hover_color emptyTheme emptyWinfo ("#808080".toList) =
      Except.ok ("#6c6c6c".toList) ∧
    get_hover_color emptyTheme emptyWinfo ("#FFFFFF".toList) =
      Except.ok ("#d8d8d8".toList) := by
  refine ⟨?_, by decide, by decide⟩
  obtain ⟨d1, hd1⟩ := Option.isSome_iff_exists.mp h1
  obtain ⟨d2, hd2⟩ := Option.isSome_iff_exists.mp h2
  obtain ⟨d3, hd3⟩ := Option.isSome_iff_exists.mp h3
  obtain ⟨d4, hd4⟩ := Option.isSome_iff_exists.mp h4
  obtain ⟨d5, hd5⟩ := Option.isSome_iff_exists.mp h5
  obtain ⟨d6, hd6⟩ := Option.isSome_iff_exists.mp h6
  simp only [get_hover_color, resolveChannels, hfall, List.head?_cons,
    Option.some.injEq, if_pos, pyIntBase16Pair, hd1, hd2, hd3, hd4, hd5, hd6,
    hexPairNat, Option.getD_some, specDarken_eq]
  rw [darkenChannel_pair, darkenChannel_pair, darkenChannel_pair]

/-- C3 counterexample: `"#-1-1-1"` starts with `#` after falling back to
the literal input and its channel slices contain the non-hex character `-`,
yet `_get_hover_color` returns normally (`"#000000"`), because Python's
`int("-1", 16)` accepts a signed single digit. -/
theorem c3_counterexample_signed_pair :
    resolveThemeColor emptyTheme ("#-1-1-1".toList) = "#-1-1-1".toList ∧
    ("#-1-1-1".toList).head? = some '#' ∧
    isHexDigit '-' = false ∧
    get_hover_color emptyTheme emptyWinfo ("#-1-1-1".toList) =
      Except.ok ("#000000".toList) := by decide

/-- C3 amended: for an input starting with `#` after the theme lookup falls
back to the literal input, `_get_hover_color` raises `ValueError` exactly
when the length is not 7 or one of the three two-character channel slices
is rejected by Python's base-16 integer parser (which, beyond two hex
digits, also accepts a single hex digit with a leading sign or surrounding
whitespace). -/
theorem c3_amended_error_iff (theme : Theme) (winfo : WinfoRgb) (s : PyStr)
    (hfall : resolveThemeColor theme s = s) (hh : s.head? = some '#') :
    isErr (get_hover_color theme winfo s) = !channelParseOk s := by
  simp only [get_hover_color, resolveChannels, hfall]
  rw [if_pos hh]
  rcases s with _ | ⟨c0, rest⟩
  · simp at hh
  rcases rest with _ | ⟨a, rest⟩
  · simp [channelParseOk, isErr]
  rcases rest with _ | ⟨b, rest⟩
  · simp [channelParseOk, isErr]
  rcases rest with _ | ⟨c, rest⟩
  · simp [channelParseOk, isErr]
  rcases rest with _ | ⟨d, rest⟩
  · simp [channelParseOk, isErr]
  rcases rest with _ | ⟨e, rest⟩
  · simp [channelParseOk, isErr]
  rcases rest with _ | ⟨f, rest⟩
  · simp [channelParseOk, isErr]
  rcases rest with _ | ⟨g, rest⟩
  · cases hab : pyIntBase16Pair a b <;> cases hcd : pyIntBase16Pair c d <;>
      cases hef : pyIntBase16Pair e f <;>
      simp [channelParseOk, isErr, hab, hcd, hef]
  · simp [channelParseOk, isErr]

/-- C3 amended witness: a malformed code (`"#zzzzzz"`), evaluated. -/
theorem c3_amended_error_iff_witness :
    isErr (get_hover_color emptyTheme emptyWinfo ("#zzzzzz".toList)) =
      !channelParseOk ("#zzzzzz".toList) :=
  c3_amended_error_iff emptyTheme emptyWinfo ("#zzzzzz".toList) rfl rfl


theorem hexDigitVal_le (c : Char) (d : Nat) (h : hexDigitVal c = some d) :
    d ≤ 15 := by
  unfold hexDigitVal at h
  split at h
  · simp only [Option.some.injEq] at h
    omega
  · split at h
    · simp only [Option.some.injEq] at h
      omega
    · split at h
      · simp only [Option.some.injEq] at h
        omega
      · exact absurd h (by simp)

theorem pyIntBase16Pair_bounds (c1 c2 : Char) (v : Int)
    (h : pyIntBase16Pair c1 c2 = some v) : -15 ≤ v ∧ v ≤ 255 := by
  unfold pyIntBase16Pair at h
  cases e1 : hexDigitVal c1 <;> cases e2 : hexDigitVal c2 <;>
      simp only [e1, e2] at h
  case none.none => exact absurd h (by simp)
  case none.some d2 =>
    have hd2 := hexDigitVal_le c2 d2 e2
    split at h
    · simp only [Option.some.injEq] at h
      omega
    · split at h
      · simp only [Option.some.injEq] at h
        omega
      · split at h
        · simp only [Option.some.injEq] at h
          omega
        · exact absurd h (by simp)
  case some.none d1 =>
    have hd1 := hexDigitVal_le c1 d1 e1
    split at h
    · simp only [Option.some.injEq] at h
      omega
    · exact absurd h (by simp)
  case some.some d1 d2 =>
    have hd1 := hexDigitVal_le c1 d1 e1
    have hd2 := hexDigitVal_le c2 d2 e2
    simp only [Option.some.injEq] at h
    omega

theorem resolveChannels_ok_bounds (theme : Theme) (winfo : WinfoRgb)
    (s : PyStr) (r g b : Int)
    (h : resolveChannels theme winfo s = Except.ok (r, g, b)) :
    (-15 ≤ r ∧ r ≤ 255) ∧ (-15 ≤ g ∧ g ≤ 255) ∧ (-15 ≤ b ∧ b ≤ 255) := by
  unfold resolveChannels at h
  split at h
  · split at h
    · split at h
      · rename_i hr hg hb
        simp only [Except.ok.injEq, Prod.mk.injEq] at h
        obtain ⟨h1, h2, h3⟩ := h
        subst h1; subst h2; subst h3
        exact ⟨pyIntBase16Pair_bounds _ _ _ hr, pyIntBase16Pair_bounds _ _ _ hg,
          pyIntBase16Pair_bounds _ _ _ hb⟩
      · exact absurd h (by simp)
    · exact absurd h (by simp)
  · split at h
    · rename_i r16 g16 b16 heq
      simp only [Except.ok.injEq, Prod.mk.injEq] at h
      obtain ⟨h1, h2, h3⟩ := h
      have hr : r16.val / 256 ≤ 255 := by
        have := Nat.div_le_div_right (c := 256) (Nat.le_of_lt_succ r16.isLt)
        simpa using this
      have hg : g16.val / 256 ≤ 255 := by
        have := Nat.div_le_div_right (c := 256) (Nat.le_of_lt_succ g16.isLt)
        simpa using this
      have hb : b16.val / 256 ≤ 255 := by
        have := Nat.div_le_div_right (c := 256) (Nat.le_of_lt_succ b16.isLt)
        simpa using this
      omega
    · exact absurd h (by simp)

theorem darkenChannel_le_216 (r : Int) (h : r ≤ 255) : darkenChannel r ≤ 216 := by
  unfold darkenChannel
  split
  · omega
  · rename_i hpos
    have h2 : 17 * r.toNat ≤ 4335 := by omega
    calc 17 * r.toNat / 20 ≤ 4335 / 20 := Nat.div_le_div_right h2
    _ = 216 := by norm_num

theorem darkenChannel_le_clamped (r : Int) :
    (darkenChannel r : Int) ≤ max 0 r := by
  unfold darkenChannel
  split
  · simp
  · rename_i hpos
    rw [max_eq_right (by omega : (0 : Int) ≤ r)]
    have h1 : 17 * r.toNat / 20 ≤ r.toNat := by
      have h0 : 17 * r.toNat ≤ 20 * r.toNat := by omega
      calc 17 * r.toNat / 20 ≤ 20 * r.toNat / 20 := Nat.div_le_div_right h0
      _ = r.toNat := by omega
    generalize 17 * r.toNat / 20 = k at h1 ⊢
    omega

set_option maxRecDepth 4096 in
theorem pyFormat02x_bounded : ∀ n < 217, (pyFormat02x n).length = 2 ∧
    ∀ c ∈ pyFormat02x n, isLowerHexDigit c = true := by decide

/-- C9 counterexample: on `"#-f0000"` the first resolved channel is `-15`
(Python parses the slice `"-f"` as a signed hex digit), the function
returns normally, and the corresponding encoded output channel is `0`,
which is **greater** than the resolved input channel — so "each output
channel ≤ the corresponding resolved input channel" fails as stated. -/
theorem c9_counterexample_negative_channel :
    resolveChannels emptyTheme emptyWinfo ("#-f0000".toList) =
      Except.ok (-15, 0, 0) ∧
    get_hover_color emptyTheme emptyWinfo ("#-f0000".toList) =
      Except.ok ("#000000".toList) ∧
    darkenChannel (-15) = 0 ∧ ¬((0 : Int) ≤ -15) := by decide

/-- C9 amended: a non-raising result is `#` followed by six lowercase hex
digits (length 7), each encoded channel is at most 216, and each encoded
channel is at most the corresponding resolved input channel clamped below
at 0 (the clamp is forced by sign-parsed channels such as `"-f"`, where the
resolved channel is negative and the output channel is 0). -/
theorem c9_amended_output_shape (theme : Theme) (winfo : WinfoRgb)
    (s out : PyStr) (h : get_hover_color theme winfo s = Except.ok out) :
    ∃ r g b : Int, resolveChannels theme winfo s = Except.ok (r, g, b) ∧
      out = '#' :: (pyFormat02x (darkenChannel r) ++
        pyFormat02x (darkenChannel g) ++ pyFormat02x (darkenChannel b)) ∧
      out.length = 7 ∧ out.head? = some '#' ∧
      (∀ c ∈ out.tail, isLowerHexDigit c = true) ∧
      darkenChannel r ≤ 216 ∧ darkenChannel g ≤ 216 ∧ darkenChannel b ≤ 216 ∧
      (darkenChannel r : Int) ≤ max 0 r ∧ (darkenChannel g : Int) ≤ max 0 g ∧
      (darkenChannel b : Int) ≤ max 0 b := by
  unfold get_hover_color at h
  split at h
  · exact absurd h (by simp)
  · rename_i r g b heq
    simp only [Except.ok.injEq] at h
    subst h
    obtain ⟨⟨hr1, hr2⟩, ⟨hg1, hg2⟩, ⟨hb1, hb2⟩⟩ :=
      resolveChannels_ok_bounds theme winfo s r g b heq
    have dr := darkenChannel_le_216 r hr2
    have dg := darkenChannel_le_216 g hg2
    have db := darkenChannel_le_216 b hb2
    have fr := pyFormat02x_bounded (darkenChannel r) (by omega)
    have fg := pyFormat02x_bounded (darkenChannel g) (by omega)
    have fb := pyFormat02x_bounded (darkenChannel b) (by omega)
    refine ⟨r, g, b, heq, rfl, ?_, rfl, ?_, dr, dg, db,
      darkenChannel_le_clamped r, darkenChannel_le_clamped g,
      darkenChannel_le_clamped b⟩
    · simp [List.length_append, fr.1, fg.1, fb.1]
    · intro c hc
      simp only [List.tail_cons, List.mem_append] at hc
      rcases hc with (hc | hc) | hc
      · exact fr.2 c hc
      · exact fg.2 c hc
      · exact fb.2 c hc

/-- C9 amended witness: the shape facts at `"#808080" ↦ "#6c6c6c"`. -/
theorem c9_amended_output_shape_witness :
    ∃ r g b : Int,
      resolveChannels emptyTheme emptyWinfo ("#808080".toList) =
        Except.ok (r, g, b) ∧
      "#6c6c6c".toList = '#' :: (pyFormat02x (darkenChannel r) ++
        pyFormat02x (darkenChannel g) ++ pyFormat02x (darkenChannel b)) ∧
      ("#6c6c6c".toList).length = 7 ∧ ("#6c6c6c".toList).head? = some '#' ∧
      (∀ c ∈ ("#6c6c6c".toList).tail, isLowerHexDigit c = true) ∧
      darkenChannel r ≤ 216 ∧ darkenChannel g ≤ 216 ∧ darkenChannel b ≤ 216 ∧
      (darkenChannel r : Int) ≤ max 0 r ∧ (darkenChannel g : Int) ≤ max 0 g ∧
      (darkenChannel b : Int) ≤ max 0 b :=
  c9_amended_output_shape emptyTheme emptyWinfo ("#808080".toList)
    ("#6c6c6c".toList) (by decide)

/-- C2: with a positive configured maximum `M`, every state reachable
through construction, toggles and text mutations (each mutation running
the `_limit_characters` trace) has stored text of length at most `M`; and
a mutation whose new value reaches or exceeds `M` characters leaves
exactly the first `M` characters. -/
theorem c2_max_length_invariant (cfg : Config) (theme : Theme)
    (winfo : WinfoRgb) (M : Int) (hM : cfg.max_characters = some M)
    (hpos : 0 < M) :
    (∀ s, Reachable cfg theme winfo s → (s.entry_text.length : Int) ≤ M) ∧
    (∀ s t, (t.length : Int) ≥ M →
      (writeText cfg s t).entry_text = t.take M.toNat) := by
  constructor
  · intro s hs
    induction hs with
    | init s h =>
      obtain ⟨_, _, h3, _⟩ := initWidget_fields cfg theme winfo s h
      rw [h3]
      simp
      omega
    | toggle s h ih =>
      rw [toggle_preserves_entry_text]
      exact ih
    | write s t h ih =>
      simp only [writeText, hM, limit_characters]
      split
      · rename_i hle
        rw [pySliceTo, if_pos (le_of_lt hpos)]
        simp only [List.length_take]
        omega
      · rename_i hgt
        simp only [ge_iff_le, not_le] at hgt
        omega
  · intro s t ht
    simp only [writeText, hM, limit_characters, if_pos ht]
    rw [pySliceTo, if_pos (le_of_lt hpos)]

/-- C2 witness: a 13-character write into the sample widget (maximum 8)
leaves at most 8 characters. -/
theorem c2_max_length_invariant_witness :
    ((writeText sampleConfig sampleInitState
      ("helloworldxyz".toList)).entry_text.length : Int) ≤ 8 :=
  (c2_max_length_invariant sampleConfig emptyTheme emptyWinfo 8 rfl
      (by norm_num)).1 _
    (Reachable.write sampleInitState _
      (Reachable.init sampleInitState (by decide)))

/-- C6: `toggle_edit_mode` is exactly the two-state machine — it always
flips `can_edit`; from DISABLED it makes the entry writable, selects all
text (with focus), applies the enabled color/label and the recomputed hover
color, and reports the on-enable callback invoked iff one is present; from
ENABLED it makes the entry read-only, applies the disabled color/label, and
reports the on-disable callback invoked iff one is present. -/
theorem c6_toggle_transitions (cfg : Config) (theme : Theme)
    (winfo : WinfoRgb) (s : WidgetState) :
    ((toggle_edit_mode cfg theme winfo s).state.can_edit = !s.can_edit) ∧
    (s.can_edit = false → ∀ hov,
      get_hover_color theme winfo cfg.edit_enabled_color = Except.ok hov →
      toggle_edit_mode cfg theme winfo s =
        ⟨{ s with
            can_edit := true
            entry_editable := true
            entry_focused := true
            entry_selected := true
            button_text := cfg.edit_enabled_text
            button_fg_color := cfg.edit_enabled_color
            button_hover_color := hov },
          none, cfg.has_on_enable_edit_command, false⟩) ∧
    (s.can_edit = true → ∀ hov,
      get_hover_color theme winfo cfg.edit_disabled_color = Except.ok hov →
      toggle_edit_mode cfg theme winfo s =
        ⟨{ s with
            can_edit := false
            entry_editable := false
            button_text := cfg.edit_disabled_text
            button_fg_color := cfg.edit_disabled_color
            button_hover_color := hov },
          none, false, cfg.has_on_disable_edit_command⟩) := by
  refine ⟨?_, ?_, ?_⟩
  · unfold toggle_edit_mode
    dsimp only
    split
    · split <;> rfl
    · split <;> rfl
  · intro hcf hov hhov
    simp [toggle_edit_mode, hcf, hhov]
  · intro hct hov hhov
    simp [toggle_edit_mode, hct, hhov]

/-- C6 witness: the sample widget's first toggle, evaluated. -/
theorem c6_toggle_transitions_witness :
    toggle_edit_mode sampleConfig emptyTheme emptyWinfo sampleInitState =
      ⟨{ sampleInitState with
          can_edit := true
          entry_editable := true
          entry_focused := true
          entry_selected := true
          button_text := sampleConfig.edit_enabled_text
          button_fg_color := sampleConfig.edit_enabled_color
          button_hover_color := "#00d800".toList },
        none, sampleConfig.has_on_enable_edit_command, false⟩ :=
  (c6_toggle_transitions sampleConfig emptyTheme emptyWinfo
      sampleInitState).2.1 rfl ("#00d800".toList) (by decide)

theorem toggle_from_disabled_ok (cfg : Config) (theme : Theme)
    (winfo : WinfoRgb) (s : WidgetState) (hov : PyStr)
    (hcf : s.can_edit = false)
    (hhov : get_hover_color theme winfo cfg.edit_enabled_color = Except.ok hov) :
    toggle_edit_mode cfg theme winfo s =
      ⟨{ s with
          can_edit := true
          entry_editable := true
          entry_focused := true
          entry_selected := true
          button_text := cfg.edit_enabled_text
          button_fg_color := cfg.edit_enabled_color
          button_hover_color := hov },
        none, cfg.has_on_enable_edit_command, false⟩ := by
  simp [toggle_edit_mode, hcf, hhov]

theorem toggle_from_disabled_err (cfg : Config) (theme : Theme)
    (winfo : WinfoRgb) (s : WidgetState) (e : ColorError)
    (hcf : s.can_edit = false)
    (hhov : get_hover_color theme winfo cfg.edit_enabled_color =
      Except.error e) :
    toggle_edit_mode cfg theme winfo s =
      ⟨{ s with can_edit := true, entry_editable := true },
        some e, false, false⟩ := by
  simp [toggle_edit_mode, hcf, hhov]

theorem toggle_from_enabled_ok (cfg : Config) (theme : Theme)
    (winfo : WinfoRgb) (s : WidgetState) (hov : PyStr)
    (hct : s.can_edit = true)
    (hhov : get_hover_color theme winfo cfg.edit_disabled_color = Except.ok hov) :
    toggle_edit_mode cfg theme winfo s =
      ⟨{ s with
          can_edit := false
          entry_editable := false
          button_text := cfg.edit_disabled_text
          button_fg_color := cfg.edit_disabled_color
          button_hover_color := hov },
        none, false, cfg.has_on_disable_edit_command⟩ := by
  simp [toggle_edit_mode, hct, hhov]

theorem toggle_from_enabled_err (cfg : Config) (theme : Theme)
    (winfo : WinfoRgb) (s : WidgetState) (e : ColorError)
    (hct : s.can_edit = true)
    (hhov : get_hover_color theme winfo cfg.edit_disabled_color =
      Except.error e) :
    toggle_edit_mode cfg theme winfo s =
      ⟨{ s with can_edit := false, entry_editable := false },
        some e, false, false⟩ := by
  simp [toggle_edit_mode, hct, hhov]

theorem reachable_invariant (cfg : Config) (theme : Theme) (winfo : WinfoRgb)
    (s : WidgetState) (h : Reachable cfg theme winfo s) :
    (∃ hd, get_hover_color theme winfo cfg.edit_disabled_color =
      Except.ok hd) ∧
    s.entry_editable = s.can_edit ∧
    (s.can_edit = false → s.button_text = cfg.edit_disabled_text ∧
      s.button_fg_color = cfg.edit_disabled_color ∧
      get_hover_color theme winfo cfg.edit_disabled_color =
        Except.ok s.button_hover_color) ∧
    (s.can_edit = true → ∀ hov,
      get_hover_color theme winfo cfg.edit_enabled_color = Except.ok hov →
      s.button_text = cfg.edit_enabled_text ∧
      s.button_fg_color = cfg.edit_enabled_color ∧
      s.button_hover_color = hov) := by
  induction h with
  | init s h =>
    obtain ⟨h1, h2, _, h4, h5, h6⟩ := initWidget_fields cfg theme winfo s h
    exact ⟨⟨s.button_hover_color, h6⟩, by rw [h1, h2],
      fun _ => ⟨h4, h5, h6⟩, fun hc => absurd hc (by simp [h1])⟩
  | toggle s h ih =>
    obtain ⟨⟨hd, hhd⟩, ihe, ihf, iht⟩ := ih
    cases hce : s.can_edit with
    | false =>
      cases hge : get_hover_color theme winfo cfg.edit_enabled_color with
      | error e =>
        rw [toggle_from_disabled_err cfg theme winfo s e hce hge]
        refine ⟨⟨hd, hhd⟩, rfl, fun hcf => absurd hcf (by simp),
          fun _ hov hhov => ?_⟩
        exact absurd hhov (by simp)
      | ok hov0 =>
        rw [toggle_from_disabled_ok cfg theme winfo s hov0 hce hge]
        refine ⟨⟨hd, hhd⟩, rfl, fun hcf => absurd hcf (by simp),
          fun _ hov hhov => ?_⟩
        simp only [Except.ok.injEq] at hhov
        exact ⟨rfl, rfl, by simp [hhov]⟩
    | true =>
      rw [toggle_from_enabled_ok cfg theme winfo s hd hce hhd]
      refine ⟨⟨hd, hhd⟩, rfl, fun _ => ⟨rfl, rfl, ?_⟩,
        fun hct => absurd hct (by simp)⟩
      simpa using hhd
  | write s t h ih =>
    obtain ⟨he, ihe, ihf, iht⟩ := ih
    exact ⟨he, ihe, ihf, iht⟩

/-- C5: from any reachable state, two successive `toggle_edit_mode` calls
that both return normally restore the original edit-enabled boolean, button
label text, and button colors. -/
theorem c5_double_toggle_restores (cfg : Config) (theme : Theme)
    (winfo : WinfoRgb) (s : WidgetState)
    (hreach : Reachable cfg theme winfo s)
    (h1 : (toggle_edit_mode cfg theme winfo s).err = none)
    (h2 : (toggle_edit_mode cfg theme winfo
      (toggle_edit_mode cfg theme winfo s).state).err = none) :
    (toggle_edit_mode cfg theme winfo
      (toggle_edit_mode cfg theme winfo s).state).state.can_edit =
        s.can_edit ∧
    (toggle_edit_mode cfg theme winfo
      (toggle_edit_mode cfg theme winfo s).state).state.button_text =
        s.button_text ∧
    (toggle_edit_mode cfg theme winfo
      (toggle_edit_mode cfg theme winfo s).state).state.button_fg_color =
        s.button_fg_color ∧
    (toggle_edit_mode cfg theme winfo
      (toggle_edit_mode cfg theme winfo s).state).state.button_hover_color =
        s.button_hover_color := by
  obtain ⟨⟨hd, hhd⟩, ihe, ihf, iht⟩ :=
    reachable_invariant cfg theme winfo s hreach
  cases hce : s.can_edit with
  | false =>
    cases hge : get_hover_color theme winfo cfg.edit_enabled_color with
    | error e =>
      rw [toggle_from_disabled_err cfg theme winfo s e hce hge] at h1
      exact absurd h1 (by simp)
    | ok hov =>
      rw [toggle_from_disabled_ok cfg theme winfo s hov hce hge]
      rw [toggle_from_enabled_ok cfg theme winfo _ hd rfl hhd]
      obtain ⟨hbt, hbf, hbh⟩ := ihf hce
      rw [hhd] at hbh
      simp only [Except.ok.injEq] at hbh
      exact ⟨by simp [hce], by simp [hbt], by simp [hbf], by simp [hbh]⟩
  | true =>
    rw [toggle_from_enabled_ok cfg theme winfo s hd hce hhd]
    cases hge : get_hover_color theme winfo cfg.edit_enabled_color with
    | error e =>
      rw [toggle_from_enabled_ok cfg theme winfo s hd hce hhd] at h2
      rw [toggle_from_disabled_err cfg theme winfo _ e rfl hge] at h2
      exact absurd h2 (by simp)
    | ok hov =>
      rw [toggle_from_disabled_ok cfg theme winfo _ hov rfl hge]
      obtain ⟨hbt, hbf, hbh⟩ := iht hce hov hge
      exact ⟨by simp [hce], by simp [hbt], by simp [hbf], by simp [hbh]⟩

/-- C5 witness: the sample widget toggled twice from its initial state. -/
theorem c5_double_toggle_restores_witness :
    (toggle_edit_mode sampleConfig emptyTheme emptyWinfo
      (toggle_edit_mode sampleConfig emptyTheme emptyWinfo
        sampleInitState).state).state.can_edit = sampleInitState.can_edit ∧
    (toggle_edit_mode sampleConfig emptyTheme emptyWinfo
      (toggle_edit_mode sampleConfig emptyTheme emptyWinfo
        sampleInitState).state).state.button_text =
      sampleInitState.button_text ∧
    (toggle_edit_mode sampleConfig emptyTheme emptyWinfo
      (toggle_edit_mode sampleConfig emptyTheme emptyWinfo
        sampleInitState).state).state.button_fg_color =
      sampleInitState.button_fg_color ∧
    (toggle_edit_mode sampleConfig emptyTheme emptyWinfo
      (toggle_edit_mode sampleConfig emptyTheme emptyWinfo
        sampleInitState).state).state.button_hover_color =
      sampleInitState.button_hover_color :=
  c5_double_toggle_restores sampleConfig emptyTheme emptyWinfo
    sampleInitState (Reachable.init sampleInitState (by decide))
    (by decide) (by decide)

/-- C1 witness: the general statement applied at `"#123456"`, plus the two
named examples. -/
theorem c1_hex_darkening_witness :
    get_hover_color emptyTheme emptyWinfo ('#' :: ['1', '2', '3', '4', '5', '6']) =
      Except.ok ('#' :: (pyFormat02x (specDarken (hexPairNat '1' '2')) ++
        pyFormat02x (specDarken (hexPairNat '3' '4')) ++
        pyFormat02x (specDarken (hexPairNat '5' '6')))) ∧
    get_hover_color emptyTheme emptyWinfo ("#808080".toList) =
      Except.ok ("#6c6c6c".toList) ∧
    get_hover_color emptyTheme emptyWinfo ("#FFFFFF".toList) =
      Except.ok ("#d8d8d8".toList) :=
  c1_hex_darkening emptyTheme emptyWinfo '1' '2' '3' '4' '5' '6'
    (by decide) (by decide) (by decide) (by decide) (by decide) (by decide)
    rfl
